import Mathlib

/-!
Verification of the System-Check metric-collection-and-threshold-warning model.

The program (src/system_check.py) queries the OS for identity, disk, CPU,
memory and network data, computes derived quantities (unit conversions,
percentages) over those counters, and prints warning lines when fixed
thresholds are crossed.  We embed it shallowly:

* OS query results are an `Env` record (one snapshot of what the Python
  library calls would return for this run); a query that can raise in Python
  is an `Except PyError` / `Option` field.
* Python numeric values are rationals; Python division raising
  `ZeroDivisionError` on a zero denominator is `pydiv`.
* `print` output is a list of typed `Line` events carrying the numeric
  payloads (the 2-decimal string formatting is presentation and out of the
  model, per the spec).
* Each `check_*` method returns `Except PyError (List Line)`: the lines it
  prints, or the exception it lets escape.  In every method the fallible
  calls happen before the method's own prints, so an escaping exception
  means the method printed nothing (except the disk method's `OSError`
  handler, modelled explicitly).
* The `__main__` block is `run_main`, threading the methods in order and
  recording output printed before an uncaught exception.
-/

/-- Python exception classes that the modelled calls can raise. -/
inductive PyError where
  | osError
  | zeroDivisionError
  | attributeError
  deriving DecidableEq

/-- Result of `psutil.disk_usage(path)`: raw byte counters. -/
structure DiskUsage where
  total : Nat
  used : Nat
  deriving DecidableEq

/-- Result of `psutil.virtual_memory()`: raw byte counters. -/
structure VirtualMemory where
  total : Nat
  used : Nat
  deriving DecidableEq

/-- Result of `psutil.net_io_counters()`. -/
structure NetIOCounters where
  bytes_sent : Nat
  bytes_recv : Nat
  packets_sent : Nat
  packets_recv : Nat
  deriving DecidableEq

/-- One snapshot of the OS facilities the program queries during a run.
Fallible queries are `Except`/`Option` valued:
`getuser`/`boot_time` can raise in restricted environments,
`disk_usage` raises `OSError` on a missing path, and
`cpu_freq` is `none` when `psutil.cpu_freq()` returns `None`. -/
structure Env where
  platformPlatform : String
  unameNode : String
  getuser : Except PyError String
  boot_time : Except PyError Int
  disk_usage : String → Except PyError DiskUsage
  cpu_freq : Option ℚ
  cpu_percent : ℚ
  cpu_count_physical : Nat
  virtual_memory : VirtualMemory
  net_io_counters : NetIOCounters

/-- A printed output line, abstracted to its kind and numeric/string payload. -/
inductive Line where
  | sysHeader
  | sysOS (s : String)
  | sysMachine (s : String)
  | sysUser (s : String)
  | sysBootTime (t : Int)
  | diskHeader
  | diskName (c : Char)
  | diskTotal (q : ℚ)
  | diskUsed (q : ℚ)
  | diskFree (q : ℚ)
  | diskPercent (q : ℚ)
  | diskWarning
  | diskNotExist (d : String)
  | cpuHeader
  | cpuFreqLine (q : ℚ)
  | cpuCores (n : Nat)
  | cpuUsage (q : ℚ)
  | cpuWarning
  | memHeader
  | memTotal (q : ℚ)
  | memUsed (q : ℚ)
  | memFree (q : ℚ)
  | memPercent (q : ℚ)
  | memWarning
  | netHeader
  | netSent (q : ℚ)
  | netRecv (q : ℚ)
  | netPacketsSent (n : Nat)
  | netPacketsRecv (n : Nat)
  | blank
  deriving DecidableEq

/-- Python division: raises `ZeroDivisionError` on a zero denominator
(Python floats raise here rather than producing IEEE infinities/NaN). -/
def pydiv (a b : ℚ) : Except PyError ℚ :=
  if b = 0 then .error .zeroDivisionError else .ok (a / b)

/-- Python `s.startswith(pre)`. -/
def pyStartswith (s pre : String) : Bool :=
  pre.data.isPrefixOf s.data

/-- Lines 40–43: root directory selection from the detected OS string. -/
def rootDisk (os : String) : String :=
  if pyStartswith os "Windows" then "C:" else "/"

/-- Substring containment on strings, used to state the spec's phrasing of
root-path selection ("platform name containing Windows"). -/
def containsWindows (s : String) : Bool :=
  (List.range (s.data.length + 1)).any
    (fun i => ("Windows".data).isPrefixOf (s.data.drop i))

/-- Line 47: total disk size converted to GB (binary divisor). -/
def diskTotalGB (du : DiskUsage) : ℚ := (du.total : ℚ) / 1024 ^ 3

/-- Line 48: used disk space converted to GB (binary divisor). -/
def diskUsedGB (du : DiskUsage) : ℚ := (du.used : ℚ) / 1024 ^ 3

/-- Line 49: free disk space, difference of the converted quantities. -/
def diskFreeGB (du : DiskUsage) : ℚ := diskTotalGB du - diskUsedGB du

/-- Line 50 when the denominator is nonzero: percentage of disk used,
computed from the unit-converted quantities. -/
def diskPercentUsed (du : DiskUsage) : ℚ :=
  (diskUsedGB du / diskTotalGB du) * 100

/-- Line 93: total memory converted to MB (binary divisor). -/
def memTotalMB (vm : VirtualMemory) : ℚ := (vm.total : ℚ) / 1024 ^ 2

/-- Line 94: used memory converted to MB (binary divisor). -/
def memUsedMB (vm : VirtualMemory) : ℚ := (vm.used : ℚ) / 1024 ^ 2

/-- Line 95: free memory, difference of the converted quantities. -/
def memFreeMB (vm : VirtualMemory) : ℚ := memTotalMB vm - memUsedMB vm

/-- Line 96 when the denominator is nonzero: percentage of memory used. -/
def memPercentUsed (vm : VirtualMemory) : ℚ :=
  (memUsedMB vm / memTotalMB vm) * 100

/-- Lines 26–32: the system-information block. -/
def sysLines (os machine user : String) (boot : Int) : List Line :=
  [.sysHeader, .sysOS os, .sysMachine machine, .sysUser user, .sysBootTime boot]

/-- `check_system_info` (lines 15–32): machine name, then the two fallible
queries (`getuser`, `psutil.boot_time`), then the prints.  No handler: an
exception escapes before anything is printed. -/
def check_system_info (os : String) (env : Env) : Except PyError (List Line) :=
  match env.getuser with
  | .error e => .error e
  | .ok u =>
    match env.boot_time with
    | .error e => .error e
    | .ok t => .ok (sysLines os env.unameNode u t)

/-- Lines 53–63: the disk block printed inside the `try`, warning included
iff `percentage_used > 80` (line 61). -/
def diskLines (disk : String) (du : DiskUsage) (percentage_used : ℚ) : List Line :=
  [.diskHeader, .diskName disk.front, .diskTotal (diskTotalGB du),
   .diskUsed (diskUsedGB du), .diskFree (diskFreeGB du),
   .diskPercent percentage_used]
  ++ (if percentage_used > 80 then [.diskWarning] else []) ++ [.blank]

/-- `check_disk_usage` (lines 34–66): select the root path, then a `try`
block querying the disk and computing the percentage before any print;
`except OSError` (line 64) prints the does-not-exist message.  Any other
exception (notably `ZeroDivisionError` from line 50) escapes. -/
def check_disk_usage (os : String) (env : Env) : Except PyError (List Line) :=
  let disk := rootDisk os
  match
    (match env.disk_usage disk with
     | .error e => .error e
     | .ok du =>
       match pydiv (diskUsedGB du) (diskTotalGB du) with
       | .error e => .error e
       | .ok pu => .ok (diskLines disk du (pu * 100)) : Except PyError (List Line))
  with
  | .ok lines => .ok lines
  | .error .osError => .ok [.diskNotExist disk]
  | .error e => .error e

/-- Lines 78–86: the CPU block, warning included iff `cpu_usage > 80`. -/
def cpuLines (freq usage : ℚ) (cores : Nat) : List Line :=
  [.cpuHeader, .cpuFreqLine freq, .cpuCores cores, .cpuUsage usage]
  ++ (if usage > 80 then [.cpuWarning] else []) ++ [.blank]

/-- `check_cpu_usage` (lines 68–86): `psutil.cpu_freq().current` first; when
`cpu_freq()` returns `None`, the `.current` access raises `AttributeError`
before anything is printed.  No handler. -/
def check_cpu_usage (env : Env) : Except PyError (List Line) :=
  match env.cpu_freq with
  | none => .error .attributeError
  | some f => .ok (cpuLines f env.cpu_percent env.cpu_count_physical)

/-- Lines 99–108: the memory block, warning included iff `free < 500`
(free measured in MB, line 106). -/
def memLines (vm : VirtualMemory) (percentage_used : ℚ) : List Line :=
  [.memHeader, .memTotal (memTotalMB vm), .memUsed (memUsedMB vm),
   .memFree (memFreeMB vm), .memPercent (percentage_used)]
  ++ (if memFreeMB vm < 500 then [.memWarning] else []) ++ [.blank]

/-- `check_memory_usage` (lines 88–108): conversions and the percentage
(line 96) are computed before any print; no handler, so a
`ZeroDivisionError` when total memory is zero escapes. -/
def check_memory_usage (env : Env) : Except PyError (List Line) :=
  let vm := env.virtual_memory
  match pydiv (memUsedMB vm) (memTotalMB vm) with
  | .error e => .error e
  | .ok pu => .ok (memLines vm (pu * 100))

/-- Lines 119–123: the network block (purely informational, no warning). -/
def netLines (n : NetIOCounters) : List Line :=
  [.netHeader, .netSent ((n.bytes_sent : ℚ) / 1024 ^ 2),
   .netRecv ((n.bytes_recv : ℚ) / 1024 ^ 2),
   .netPacketsSent n.packets_sent, .netPacketsRecv n.packets_recv]

/-- `check_network_usage` (lines 110–123): infallible in the model. -/
def check_network_usage (env : Env) : Except PyError (List Line) :=
  .ok (netLines env.net_io_counters)

/-- The `__main__` block (lines 126–133): construct `SystemCheck` (reading
`platform.platform()` once) and call the five methods in order.  Returns
the lines printed before any uncaught exception, and that exception if one
escaped (the Python process then dies with a traceback and nonzero exit). -/
def run_main (env : Env) : List Line × Option PyError :=
  let os := env.platformPlatform
  match check_system_info os env with
  | .error e => ([], some e)
  | .ok l1 =>
    match check_disk_usage os env with
    | .error e => (l1, some e)
    | .ok l2 =>
      match check_cpu_usage env with
      | .error e => (l1 ++ l2, some e)
      | .ok l3 =>
        match check_memory_usage env with
        | .error e => (l1 ++ l2 ++ l3, some e)
        | .ok l4 =>
          match check_network_usage env with
          | .error e => (l1 ++ l2 ++ l3 ++ l4, some e)
          | .ok l5 => (l1 ++ l2 ++ l3 ++ l4 ++ l5, none)

/-! ### Helper lemmas about the derived quantities -/

lemma diskTotalGB_ne_zero {du : DiskUsage} (h : 0 < du.total) : diskTotalGB du ≠ 0 := by
  have ht : (du.total : ℚ) ≠ 0 := Nat.cast_ne_zero.mpr h.ne'
  unfold diskTotalGB
  exact div_ne_zero ht (by norm_num)

lemma memTotalMB_ne_zero {vm : VirtualMemory} (h : 0 < vm.total) : memTotalMB vm ≠ 0 := by
  have ht : (vm.total : ℚ) ≠ 0 := Nat.cast_ne_zero.mpr h.ne'
  unfold memTotalMB
  exact div_ne_zero ht (by norm_num)

lemma diskPercentUsed_eq_raw {du : DiskUsage} (h : 0 < du.total) :
    diskPercentUsed du = (du.used : ℚ) / (du.total : ℚ) * 100 := by
  have ht : (du.total : ℚ) ≠ 0 := Nat.cast_ne_zero.mpr h.ne'
  unfold diskPercentUsed diskUsedGB diskTotalGB
  field_simp

lemma memPercentUsed_eq_raw {vm : VirtualMemory} (h : 0 < vm.total) :
    memPercentUsed vm = (vm.used : ℚ) / (vm.total : ℚ) * 100 := by
  have ht : (vm.total : ℚ) ≠ 0 := Nat.cast_ne_zero.mpr h.ne'
  unfold memPercentUsed memUsedMB memTotalMB
  field_simp

/-! ### Reduction lemmas for the check functions -/

lemma check_disk_usage_ok {os : String} {env : Env} {du : DiskUsage}
    (h : env.disk_usage (rootDisk os) = .ok du) (ht : 0 < du.total) :
    check_disk_usage os env = .ok (diskLines (rootDisk os) du (diskPercentUsed du)) := by
  have hne := diskTotalGB_ne_zero ht
  simp [check_disk_usage, h, pydiv, hne, diskPercentUsed]

lemma check_memory_usage_ok {env : Env} (ht : 0 < env.virtual_memory.total) :
    check_memory_usage env =
      .ok (memLines env.virtual_memory (memPercentUsed env.virtual_memory)) := by
  have hne := memTotalMB_ne_zero ht
  simp [check_memory_usage, pydiv, hne, memPercentUsed]

lemma check_system_info_ok {os : String} {env : Env} {u : String} {t : Int}
    (hu : env.getuser = .ok u) (ht : env.boot_time = .ok t) :
    check_system_info os env = .ok (sysLines os env.unameNode u t) := by
  simp [check_system_info, hu, ht]

lemma check_cpu_usage_ok {env : Env} {f : ℚ} (hf : env.cpu_freq = some f) :
    check_cpu_usage env = .ok (cpuLines f env.cpu_percent env.cpu_count_physical) := by
  simp [check_cpu_usage, hf]

/-! ### Warning-membership lemmas -/

lemma diskWarning_mem_diskLines {disk : String} {du : DiskUsage} {p : ℚ} :
    Line.diskWarning ∈ diskLines disk du p ↔ 80 < p := by
  by_cases hp : 80 < p <;> simp [diskLines, hp]

lemma memWarning_mem_memLines {vm : VirtualMemory} {p : ℚ} :
    Line.memWarning ∈ memLines vm p ↔ memFreeMB vm < 500 := by
  by_cases hp : memFreeMB vm < 500 <;> simp [memLines, hp]

lemma cpuWarning_mem_cpuLines {f u : ℚ} {c : Nat} :
    Line.cpuWarning ∈ cpuLines f u c ↔ 80 < u := by
  by_cases hp : 80 < u <;> simp [cpuLines, hp]

/-! ### Concrete environments for witnesses and counterexamples -/

/-- Disk sample of the spec scenario: 100 GiB total, 85 GiB used. -/
def duW : DiskUsage := ⟨100 * 1024 ^ 3, 85 * 1024 ^ 3⟩

/-- A healthy baseline run: Linux platform, all queries succeed, 4 GiB of
memory with 1 GiB used, CPU at 50 %. -/
def baseEnv : Env where
  platformPlatform := "Linux-5.15.0-x86_64-with-glibc2.35"
  unameNode := "host1"
  getuser := .ok "alice"
  boot_time := .ok 1700000000
  disk_usage := fun _ => .ok duW
  cpu_freq := some 2400
  cpu_percent := 50
  cpu_count_physical := 4
  virtual_memory := ⟨4 * 1024 ^ 2 * 1024, 1 * 1024 ^ 2 * 1024⟩
  net_io_counters := ⟨1000, 2000, 10, 20⟩

/-- Baseline run with the CPU exactly at the 80 % boundary. -/
def envCpu80 : Env := { baseEnv with cpu_percent := 80 }

/-- Baseline run whose memory counters report a zero total. -/
def envMem0 : Env := { baseEnv with virtual_memory := ⟨0, 0⟩ }

/-- Baseline run whose disk counters report a zero total (and zero memory). -/
def envZero : Env :=
  { baseEnv with disk_usage := fun _ => .ok ⟨0, 0⟩, virtual_memory := ⟨0, 0⟩ }

/-- Baseline run where the disk root path does not exist. -/
def envDiskMissing : Env := { baseEnv with disk_usage := fun _ => .error .osError }

/-- Baseline run where the user identity query raises. -/
def envNoUser : Env := { baseEnv with getuser := .error .osError }

/-- Baseline run where `psutil.cpu_freq()` returns `None`. -/
def envNoFreq : Env := { baseEnv with cpu_freq := none }

/-! ### Claim theorems -/

/-- C1: for every disk sample with a positive byte total, the disk warning is
printed iff usedBytes / totalBytes × 100 strictly exceeds 80; at exactly 80
no warning is printed. -/
theorem C1_disk_warning_iff_over_80 (os : String) (env : Env) (du : DiskUsage)
    (h : env.disk_usage (rootDisk os) = .ok du) (ht : 0 < du.total) :
    ∃ lines, check_disk_usage os env = .ok lines ∧
      (Line.diskWarning ∈ lines ↔ 80 < (du.used : ℚ) / (du.total : ℚ) * 100) ∧
      ((du.used : ℚ) / (du.total : ℚ) * 100 = 80 → Line.diskWarning ∉ lines) := by
  refine ⟨_, check_disk_usage_ok h ht, ?_, ?_⟩
  · rw [diskWarning_mem_diskLines, diskPercentUsed_eq_raw ht]
  · intro h80
    rw [diskWarning_mem_diskLines, diskPercentUsed_eq_raw ht, h80]
    exact lt_irrefl 80

/-- C1 witness: the 100 GiB / 85 GiB scenario run. -/
theorem C1_witness :
    ∃ lines, check_disk_usage baseEnv.platformPlatform baseEnv = .ok lines ∧
      (Line.diskWarning ∈ lines ↔ 80 < (duW.used : ℚ) / (duW.total : ℚ) * 100) ∧
      ((duW.used : ℚ) / (duW.total : ℚ) * 100 = 80 → Line.diskWarning ∉ lines) :=
  C1_disk_warning_iff_over_80 baseEnv.platformPlatform baseEnv duW rfl (by norm_num [duW])

/-- C3: whenever a CPU sample is formed (the frequency query yields a value),
the CPU warning is printed iff the usage percentage strictly exceeds 80; at
exactly 80 no warning is printed. -/
theorem C3_cpu_warning_iff_over_80 (env : Env) (f : ℚ) (hf : env.cpu_freq = some f) :
    ∃ lines, check_cpu_usage env = .ok lines ∧
      (Line.cpuWarning ∈ lines ↔ 80 < env.cpu_percent) ∧
      (env.cpu_percent = 80 → Line.cpuWarning ∉ lines) := by
  refine ⟨_, check_cpu_usage_ok hf, ?_, ?_⟩
  · exact cpuWarning_mem_cpuLines
  · intro h80
    rw [cpuWarning_mem_cpuLines, h80]
    exact lt_irrefl 80

/-- C3 witness: the boundary run with usage exactly 80. -/
theorem C3_witness :
    ∃ lines, check_cpu_usage envCpu80 = .ok lines ∧
      (Line.cpuWarning ∈ lines ↔ 80 < envCpu80.cpu_percent) ∧
      (envCpu80.cpu_percent = 80 → Line.cpuWarning ∉ lines) :=
  C3_cpu_warning_iff_over_80 envCpu80 2400 rfl

lemma memFreeMB_eq {vm : VirtualMemory} :
    memFreeMB vm = ((vm.total : ℚ) - vm.used) / 1024 ^ 2 := by
  unfold memFreeMB memTotalMB memUsedMB
  exact (sub_div _ _ _).symm

lemma memFreeMB_lt_500_iff {vm : VirtualMemory} :
    memFreeMB vm < 500 ↔ (vm.total : ℚ) - vm.used < 500 * 1024 ^ 2 := by
  rw [memFreeMB_eq, div_lt_iff₀ (by norm_num : (0:ℚ) < 1024 ^ 2)]

/-- C5: for disk and memory samples with usedBytes ≤ totalBytes, the derived
free quantity equals total − used (under the unit conversion), and the
derived percentage lies in [0, 100] whenever the total is positive. -/
theorem C5_derived_quantities (du : DiskUsage) (vm : VirtualMemory)
    (hd : du.used ≤ du.total) (hm : vm.used ≤ vm.total) :
    diskFreeGB du * 1024 ^ 3 = (du.total : ℚ) - (du.used : ℚ) ∧
    memFreeMB vm * 1024 ^ 2 = (vm.total : ℚ) - (vm.used : ℚ) ∧
    (0 < du.total → 0 ≤ diskPercentUsed du ∧ diskPercentUsed du ≤ 100) ∧
    (0 < vm.total → 0 ≤ memPercentUsed vm ∧ memPercentUsed vm ≤ 100) := by
  refine ⟨?_, ?_, ?_, ?_⟩
  · unfold diskFreeGB diskTotalGB diskUsedGB
    field_simp
  · unfold memFreeMB memTotalMB memUsedMB
    field_simp
  · intro h
    have htQ : (0:ℚ) < du.total := by exact_mod_cast h
    have hle : (du.used : ℚ) ≤ du.total := by exact_mod_cast hd
    rw [diskPercentUsed_eq_raw h]
    constructor
    · positivity
    · have h1 : (du.used : ℚ) / du.total ≤ 1 := (div_le_one htQ).mpr hle
      nlinarith
  · intro h
    have htQ : (0:ℚ) < vm.total := by exact_mod_cast h
    have hle : (vm.used : ℚ) ≤ vm.total := by exact_mod_cast hm
    rw [memPercentUsed_eq_raw h]
    constructor
    · positivity
    · have h1 : (vm.used : ℚ) / vm.total ≤ 1 := (div_le_one htQ).mpr hle
      nlinarith

/-- C5 witness: the baseline disk and memory samples. -/
theorem C5_witness :
    diskFreeGB duW * 1024 ^ 3 = (duW.total : ℚ) - (duW.used : ℚ) ∧
    memFreeMB baseEnv.virtual_memory * 1024 ^ 2 =
      (baseEnv.virtual_memory.total : ℚ) - (baseEnv.virtual_memory.used : ℚ) ∧
    (0 < duW.total → 0 ≤ diskPercentUsed duW ∧ diskPercentUsed duW ≤ 100) ∧
    (0 < baseEnv.virtual_memory.total →
      0 ≤ memPercentUsed baseEnv.virtual_memory ∧
      memPercentUsed baseEnv.virtual_memory ≤ 100) :=
  C5_derived_quantities duW baseEnv.virtual_memory
    (by norm_num [duW]) (by norm_num [baseEnv])

/-- C10: for positive totals, the percentage computed from the unit-converted
quantities equals used / total × 100 on the raw byte counters, for both the
disk (GiB) and the memory (MiB) conversion. -/
theorem C10_percent_unit_invariant (du : DiskUsage) (vm : VirtualMemory)
    (hd : 0 < du.total) (hm : 0 < vm.total) :
    diskPercentUsed du = (du.used : ℚ) / (du.total : ℚ) * 100 ∧
    memPercentUsed vm = (vm.used : ℚ) / (vm.total : ℚ) * 100 :=
  ⟨diskPercentUsed_eq_raw hd, memPercentUsed_eq_raw hm⟩

/-- C10 witness: the baseline disk and memory samples. -/
theorem C10_witness :
    diskPercentUsed duW = (duW.used : ℚ) / (duW.total : ℚ) * 100 ∧
    memPercentUsed baseEnv.virtual_memory =
      (baseEnv.virtual_memory.used : ℚ) / (baseEnv.virtual_memory.total : ℚ) * 100 :=
  C10_percent_unit_invariant duW baseEnv.virtual_memory
    (by norm_num [duW]) (by norm_num [baseEnv])

lemma check_memory_usage_zero {env : Env} (h : env.virtual_memory.total = 0) :
    check_memory_usage env = .error PyError.zeroDivisionError := by
  have h0 : memTotalMB env.virtual_memory = 0 := by simp [memTotalMB, h]
  simp [check_memory_usage, pydiv, h0]

lemma check_disk_usage_zero {os : String} {env : Env} {du : DiskUsage}
    (hd : env.disk_usage (rootDisk os) = .ok du) (ht : du.total = 0) :
    check_disk_usage os env = .error PyError.zeroDivisionError := by
  have h0 : diskTotalGB du = 0 := by simp [diskTotalGB, ht]
  simp [check_disk_usage, hd, pydiv, h0]

/-- C2 counterexample: the memory sample with totalBytes = 0 has
freeBytes = 0 < 500 MiB, so the claim demands a warning, but the run raises
an uncaught `ZeroDivisionError` at the percentage computation and never
reaches the warning check. -/
theorem C2_counterexample :
    memFreeMB envMem0.virtual_memory < 500 ∧
    check_memory_usage envMem0 = .error PyError.zeroDivisionError ∧
    (run_main envMem0).2 = some PyError.zeroDivisionError := by
  have h1 := @check_system_info_ok envMem0.platformPlatform envMem0 "alice" 1700000000 rfl rfl
  have h2 := @check_disk_usage_ok envMem0.platformPlatform envMem0 duW rfl (by norm_num [duW])
  have h3 := @check_cpu_usage_ok envMem0 2400 rfl
  have h4 := @check_memory_usage_zero envMem0 rfl
  refine ⟨by norm_num [envMem0, baseEnv, memFreeMB, memTotalMB, memUsedMB], h4, ?_⟩
  simp [run_main, h1, h2, h3, h4]

/-- C2 as amended: for every memory sample whose totalBytes is positive, the
memory warning is printed iff totalBytes − usedBytes (binary-converted) is
strictly below 500 MiB; at exactly 500 MiB no warning is printed. -/
theorem C2_mem_warning_iff_free_below_500 (env : Env)
    (ht : 0 < env.virtual_memory.total) :
    ∃ lines, check_memory_usage env = .ok lines ∧
      (Line.memWarning ∈ lines ↔
        (env.virtual_memory.total : ℚ) - env.virtual_memory.used < 500 * 1024 ^ 2) ∧
      ((env.virtual_memory.total : ℚ) - env.virtual_memory.used = 500 * 1024 ^ 2 →
        Line.memWarning ∉ lines) := by
  refine ⟨_, check_memory_usage_ok ht, ?_, ?_⟩
  · rw [memWarning_mem_memLines, memFreeMB_lt_500_iff]
  · intro h500
    rw [memWarning_mem_memLines, memFreeMB_lt_500_iff, h500]
    exact lt_irrefl _

/-- C2 witness: the baseline memory sample (4 GiB total, 1 GiB used). -/
theorem C2_witness :
    ∃ lines, check_memory_usage baseEnv = .ok lines ∧
      (Line.memWarning ∈ lines ↔
        (baseEnv.virtual_memory.total : ℚ) - baseEnv.virtual_memory.used <
          500 * 1024 ^ 2) ∧
      ((baseEnv.virtual_memory.total : ℚ) - baseEnv.virtual_memory.used =
          500 * 1024 ^ 2 → Line.memWarning ∉ lines) :=
  C2_mem_warning_iff_free_below_500 baseEnv (by norm_num [baseEnv])

/-- C4 counterexample: the platform string "X Windows" contains "Windows",
so the claim requires root path "C:", but the code tests only a prefix and
selects "/". -/
theorem C4_counterexample :
    containsWindows "X Windows" = true ∧ rootDisk "X Windows" = "/" := by
  exact ⟨by decide, by decide⟩

/-- C4 as amended: root-path selection tests a prefix, not containment:
"C:" exactly when the platform string starts with "Windows", and "/" for
every other platform string (unrecognized ones included). -/
theorem C4_rootDisk_by_startswith (os : String) :
    (pyStartswith os "Windows" = true → rootDisk os = "C:") ∧
    (pyStartswith os "Windows" = false → rootDisk os = "/") := by
  constructor <;> intro h <;> simp [rootDisk, h]

/-- C4 witness: a real Windows platform string and a Linux one. -/
theorem C4_witness :
    rootDisk "Windows-10-10.0.19041-SP0" = "C:" ∧
    rootDisk "Linux-5.15.0-x86_64-with-glibc2.35" = "/" :=
  ⟨(C4_rootDisk_by_startswith "Windows-10-10.0.19041-SP0").1 (by decide),
   (C4_rootDisk_by_startswith "Linux-5.15.0-x86_64-with-glibc2.35").2 (by decide)⟩

/-- C6 counterexample: with zero byte totals the percentage computation
raises `ZeroDivisionError`; the disk group's handler catches only `OSError`
and the memory group has no handler, so no undefined/NA percentage is
reported — the error escapes and terminates the run. -/
theorem C6_counterexample :
    check_disk_usage envZero.platformPlatform envZero = .error PyError.zeroDivisionError ∧
    check_memory_usage envZero = .error PyError.zeroDivisionError ∧
    (run_main envZero).2 = some PyError.zeroDivisionError := by
  have h1 := @check_system_info_ok envZero.platformPlatform envZero "alice" 1700000000 rfl rfl
  have h2 := @check_disk_usage_zero envZero.platformPlatform envZero ⟨0, 0⟩ rfl rfl
  exact ⟨h2, @check_memory_usage_zero envZero rfl, by simp [run_main, h1, h2]⟩

/-- C6 as amended: when a byte total is zero the percentage computation
raises `ZeroDivisionError` and no handler converts it to an undefined/NA
report: both affected groups abort with the uncaught error instead of
printing. -/
theorem C6_zero_total_raises_uncaught (os : String) (env : Env) (du : DiskUsage)
    (hd : env.disk_usage (rootDisk os) = .ok du) (ht : du.total = 0)
    (hm : env.virtual_memory.total = 0) :
    check_disk_usage os env = .error PyError.zeroDivisionError ∧
    check_memory_usage env = .error PyError.zeroDivisionError :=
  ⟨check_disk_usage_zero hd ht, check_memory_usage_zero hm⟩

/-- C6 witness: the zero-total run. -/
theorem C6_witness :
    check_disk_usage envZero.platformPlatform envZero = .error PyError.zeroDivisionError ∧
    check_memory_usage envZero = .error PyError.zeroDivisionError :=
  C6_zero_total_raises_uncaught envZero.platformPlatform envZero ⟨0, 0⟩ rfl rfl rfl

/-- C7: when the disk root path does not exist (the disk query raises
`OSError`) and the other queries behave normally, the disk group prints only
the does-not-exist message while the system, CPU, memory and network groups
produce their full output and the run finishes without an exception. -/
theorem C7_disk_failure_isolated (env : Env) (u : String) (t : Int) (f : ℚ)
    (hu : env.getuser = .ok u) (hb : env.boot_time = .ok t)
    (hd : env.disk_usage (rootDisk env.platformPlatform) = .error .osError)
    (hf : env.cpu_freq = some f) (hm : 0 < env.virtual_memory.total) :
    run_main env =
      (sysLines env.platformPlatform env.unameNode u t
        ++ [.diskNotExist (rootDisk env.platformPlatform)]
        ++ cpuLines f env.cpu_percent env.cpu_count_physical
        ++ memLines env.virtual_memory (memPercentUsed env.virtual_memory)
        ++ netLines env.net_io_counters, none) := by
  have h2 : check_disk_usage env.platformPlatform env =
      .ok [.diskNotExist (rootDisk env.platformPlatform)] := by
    simp [check_disk_usage, hd]
  simp [run_main, check_system_info_ok hu hb, h2, check_cpu_usage_ok hf,
    check_memory_usage_ok hm, check_network_usage]

/-- C7 witness: the baseline run with a missing disk root. -/
theorem C7_witness :
    run_main envDiskMissing =
      (sysLines envDiskMissing.platformPlatform envDiskMissing.unameNode
          "alice" 1700000000
        ++ [.diskNotExist (rootDisk envDiskMissing.platformPlatform)]
        ++ cpuLines 2400 envDiskMissing.cpu_percent envDiskMissing.cpu_count_physical
        ++ memLines envDiskMissing.virtual_memory
            (memPercentUsed envDiskMissing.virtual_memory)
        ++ netLines envDiskMissing.net_io_counters, none) :=
  C7_disk_failure_isolated envDiskMissing "alice" 1700000000 2400 rfl rfl rfl rfl
    (by norm_num [envDiskMissing, baseEnv])

/-- C8 counterexample: when the user-identity query raises, the exception
escapes `check_system_info` uncaught and the run aborts before any metric
group has produced anything — the remaining groups are not collected. -/
theorem C8_counterexample :
    run_main envNoUser = ([], some PyError.osError) ∧
    Line.netHeader ∉ (run_main envNoUser).1 ∧
    Line.memHeader ∉ (run_main envNoUser).1 := by
  have h1 : check_system_info envNoUser.platformPlatform envNoUser =
      .error PyError.osError := by
    simp [check_system_info, envNoUser, baseEnv]
  have hrun : run_main envNoUser = ([], some PyError.osError) := by
    simp [run_main, h1]
  exact ⟨hrun, by simp [hrun], by simp [hrun]⟩

/-- C8 as amended: a failure of identity collection (the user query, or the
boot-time query after it) is caught nowhere: the run aborts with that
exception before any metric group is collected, and nothing is printed. -/
theorem C8_identity_failure_aborts_run (env : Env) (e : PyError)
    (h : env.getuser = .error e ∨
      ∃ u, env.getuser = .ok u ∧ env.boot_time = .error e) :
    run_main env = ([], some e) := by
  have hs : check_system_info env.platformPlatform env = .error e := by
    rcases h with h | ⟨u, hu, hb⟩
    · simp [check_system_info, h]
    · simp [check_system_info, hu, hb]
  simp [run_main, hs]

/-- C8 witness: the run whose user-identity query raises. -/
theorem C8_witness : run_main envNoUser = ([], some PyError.osError) :=
  C8_identity_failure_aborts_run envNoUser PyError.osError (Or.inl rfl)

/-- C9 counterexample: with the frequency query yielding no value the CPU
group raises `AttributeError` before printing anything: neither the usage
percentage nor the core count is reported, and the run aborts. -/
theorem C9_counterexample :
    check_cpu_usage envNoFreq = .error PyError.attributeError ∧
    (run_main envNoFreq).2 = some PyError.attributeError ∧
    Line.cpuUsage envNoFreq.cpu_percent ∉ (run_main envNoFreq).1 ∧
    Line.cpuCores envNoFreq.cpu_count_physical ∉ (run_main envNoFreq).1 := by
  have h1 := @check_system_info_ok envNoFreq.platformPlatform envNoFreq
    "alice" 1700000000 rfl rfl
  have h2 := @check_disk_usage_ok envNoFreq.platformPlatform envNoFreq duW rfl
    (by norm_num [duW])
  have h3 : check_cpu_usage envNoFreq = .error PyError.attributeError := by
    simp [check_cpu_usage, envNoFreq, baseEnv]
  have hrun : run_main envNoFreq =
      (sysLines envNoFreq.platformPlatform envNoFreq.unameNode "alice" 1700000000
        ++ diskLines (rootDisk envNoFreq.platformPlatform) duW (diskPercentUsed duW),
        some PyError.attributeError) := by
    simp [run_main, h1, h2, h3]
  refine ⟨h3, by simp [hrun], ?_, ?_⟩ <;> rw [hrun] <;>
    by_cases hp : diskPercentUsed duW > 80 <;>
      simp [sysLines, diskLines, hp]

/-- C9 as amended: when the frequency query yields no value the attribute
access raises `AttributeError` before any CPU field is printed, so the group
reports none of its fields and the exception escapes the group. -/
theorem C9_no_freq_aborts_group (env : Env) (h : env.cpu_freq = none) :
    check_cpu_usage env = .error PyError.attributeError := by
  simp [check_cpu_usage, h]

/-- C9 witness: the run whose frequency query yields no value. -/
theorem C9_witness : check_cpu_usage envNoFreq = .error PyError.attributeError :=
  C9_no_freq_aborts_group envNoFreq rfl
